import Mathlib

/-
Shallow embedding of the tmux pane/window controller of
`claude_code_tools` (files `tmux_cli_controller.py` and
`tmux_remote_controller.py`).

Modelling conventions:
* The external `tmux` subprocess is a pure oracle
  `TmuxEnv : List String → String × ℤ` giving the raw stdout and the
  exit status of one invocation (the Command Bridge's
  `subprocess.run`).  `run_tmux_command` strips the output, exactly as
  the source does.
* Python `Optional[str]` arguments are `Option String`; Python string
  truthiness (`if pane:` treats both `None` and `""` as absent) is the
  helper `truthyStr`.
* Clock readings and durations are integers in a fixed sub-second
  unit (think milliseconds: the source's default `idle_time = 2.0`s,
  `check_interval = 0.5`s become `2000` and `500`); only their
  ordering and differences matter to the source, so this discretizes
  Python's float seconds faithfully.  The polling loops (`wait_for_idle`,
  `wait_for_prompt`) read the clock and capture the pane once per
  iteration; an execution is a finite list of `IdleTick`s, one per
  iteration, carrying that iteration's clock reading and captured
  buffer.  Each loop body is a non-suspending round trip (spec §5), so
  it is modelled with a single time sample per tick; `sleep
  check_interval` shows up as a lower bound between consecutive tick
  times in the theorems.  A run returns `none` when the tick list is
  exhausted with the loop still going (the fuel view of
  non-termination), otherwise `some (result, index of deciding tick)`.
* `hashlib.md5(...).hexdigest()` is used by the source only for
  equality comparison; it is modelled by the injective, never-empty
  `contentHash`.
* Exceptions (`ValueError`) are `Except CtlError`; the error kinds
  carry the spec's names (`NoTargetSpecified` → `.noTarget`,
  `SelfTerminationRejected` → `.selfTermination`, `NotFound` →
  `.notFound`).
-/

/-- One subprocess invocation of the external tmux binary: maps the
argument list to (raw stdout, exit status). -/
abbrev TmuxEnv := List String → String × ℤ

/-- A pane record as parsed by `list_panes` from one formatted line. -/
structure Pane where
  id : String
  index : String
  title : String
  active : Bool
  size : String
deriving DecidableEq, Repr

/-- Error kinds raised by the controller (`ValueError` in the source),
named after the spec's error vocabulary (§7). `badIndexFormat` models
the `ValueError` that Python's `int()` raises on a non-numeric
`pane_index` field. -/
inductive CtlError
  | noTarget
  | selfTermination
  | notFound
  | badIndexFormat
  | malformedLine
deriving DecidableEq, Repr

/-- Mutable state of a `TmuxCLIController` instance: the constructor
arguments and the *last-selected* reference `target_pane`. -/
structure CState where
  session_name : Option String
  window_name : Option String
  target_pane : Option String
deriving DecidableEq, Repr

/-- Character groups of `l` between occurrences of the separator `c`:
the semantics of Python's `str.split` with a one-character separator
(`"".split(c) = [""]`, separators at the ends produce empty groups). -/
def splitCharAux (c : Char) : List Char → List (List Char)
  | [] => [[]]
  | ch :: rest =>
      match splitCharAux c rest with
      | [] => [[]]
      | g :: gs => if ch = c then [] :: g :: gs else (ch :: g) :: gs

/-- Python `s.split(c)` for a one-character separator `c` (the source
splits only on `'|'` and `'\n'`). -/
def splitChar (c : Char) (s : String) : List String :=
  (splitCharAux c s.data).map String.mk

/-- Python `s.strip()`: remove leading and trailing whitespace. -/
def pyStrip (s : String) : String :=
  String.mk (((s.data.dropWhile Char.isWhitespace).reverse.dropWhile
    Char.isWhitespace).reverse)

/-- Value of a list of decimal digit characters. -/
def digitsToNat (l : List Char) : ℕ :=
  l.foldl (fun acc c => acc * 10 + (c.toNat - 48)) 0

/-- Python `int(s)` on the decimal index fields tmux emits: an
optional sign followed by digits; anything else raises `ValueError`
(`none`). -/
def pyInt? (s : String) : Option ℤ :=
  match s.data with
  | [] => none
  | '-' :: rest =>
      if !rest.isEmpty && rest.all Char.isDigit then some (-(digitsToNat rest : ℤ))
      else none
  | l => if l.all Char.isDigit then some (digitsToNat l : ℤ) else none

/-- Python `s.isdigit()` (ASCII): nonempty and all digits. -/
def pyIsDigit (s : String) : Bool :=
  !s.isEmpty && s.data.all Char.isDigit

/-- Python string truthiness on an optional string: `None` and `""`
are falsy. -/
def truthyStr : Option String → Option String
  | none => none
  | some s => if s = "" then none else some s

/-- Python `if lines:` truthiness on an optional count: `None` and `0`
are falsy. -/
def truthyNat : Option ℕ → Option ℕ
  | none => none
  | some 0 => none
  | some n => some n

/-- The target-defaulting idiom `target = pane_id or self.target_pane`
followed by `if not target: raise`: yields the effective target, or
`none` when the operation must fail with `NoTargetSpecified`. -/
def resolveTarget (pane_id target_pane : Option String) : Option String :=
  match truthyStr pane_id with
  | some p => some p
  | none => truthyStr target_pane

/-- Models `hashlib.md5(content.encode()).hexdigest()`.  The source
uses the digest only for equality across polling ticks; we idealise it
as an injective function whose value is never the empty string (a real
md5 hexdigest is 32 characters, so it never equals the loop's `""`
initialiser). -/
def contentHash (s : String) : String := "#" ++ s

/-- Join lines with `'\n'` (inverse of `splitChar '\n'`). -/
def joinNl : List String → String
  | [] => ""
  | [l] => l
  | l :: rest => l ++ "\n" ++ joinNl rest

/-- The last `n` lines of a captured buffer: semantics of the external
`capture-pane -p -S -n` invocation (spec §4.5: output "limited to the
last max_lines lines"). -/
def lastLines (n : ℕ) (s : String) : String :=
  let ls := splitChar '\n' s
  joinNl (ls.drop (ls.length - n))

/-- Text returned by `capture_pane`: the full buffer when `lines` is
falsy (`None` or `0`), otherwise its last `lines` lines. -/
def capture_pane_output (buffer : String) (lines : Option ℕ) : String :=
  match truthyNat lines with
  | none => buffer
  | some n => lastLines n buffer

/-- One iteration of a polling loop: the clock reading at that
iteration and the buffer a capture at that iteration returns. -/
structure IdleTick where
  time : ℤ
  content : String
deriving DecidableEq, Repr

namespace TmuxCLIController

/-- `_run_tmux_command`: one bridge invocation; returns the stripped
stdout and the exit status, never raising. -/
def run_tmux_command (env : TmuxEnv) (command : List String) : String × ℤ :=
  (pyStrip (env command).1, (env command).2)

/-- `get_current_pane`: id of the execution-hosting pane, or `none`
when the bridge call fails. -/
def get_current_pane (env : TmuxEnv) : Option String :=
  let r := run_tmux_command env ["display-message", "-p", "#\x7bpane_id\x7d"]
  if r.2 = 0 then some r.1 else none

/-- The `-F` format string passed to `list-panes`. -/
def paneFormat : String :=
  "#\x7bpane_id\x7d|#\x7bpane_index\x7d|#\x7bpane_title\x7d|#\x7bpane_active\x7d|#\x7bpane_width\x7dx#\x7bpane_height\x7d"

/-- The `list-panes` invocation built by `list_panes`: a `-t` flag only
when both session and window name are truthy. -/
def listPanesCmd (s : CState) : List String :=
  let target := match truthyStr s.session_name, truthyStr s.window_name with
    | some sn, some wn => sn ++ ":" ++ wn
    | _, _ => ""
  if target = "" then ["list-panes", "-F", paneFormat]
  else ["list-panes", "-t", target, "-F", paneFormat]

/-- Parse one nonempty `list-panes` output line.  The source indexes
`parts[0] .. parts[4]` of `line.split('|')`; a line with fewer than
five fields would raise `IndexError`, modelled as `.malformedLine`. -/
def parsePane (line : String) : Except CtlError Pane :=
  match splitChar '|' line with
  | p0 :: p1 :: p2 :: p3 :: p4 :: _ =>
      .ok { id := p0, index := p1, title := p2, active := p3 = "1", size := p4 }
  | _ => .error .malformedLine

/-- The source's `for line in output.split('\n'): if line: ...` loop. -/
def parsePanes : List String → Except CtlError (List Pane)
  | [] => .ok []
  | line :: rest =>
      if line = "" then parsePanes rest
      else do
        let p ← parsePane line
        let ps ← parsePanes rest
        .ok (p :: ps)

/-- `list_panes`: enumerate the panes of the current window.  On a
nonzero bridge status it returns the empty list instead of raising. -/
def list_panes (env : TmuxEnv) (s : CState) : Except CtlError (List Pane) :=
  let r := run_tmux_command env (listPanesCmd s)
  if r.2 ≠ 0 then .ok []
  else parsePanes (splitChar '\n' r.1)

/-- The `select_pane` index loop: first pane whose `int(index)` equals
`idx` becomes the target; on no match the state is returned unchanged;
a non-numeric index field raises (`int()`'s `ValueError`). -/
def selectByIndex (s : CState) (idx : ℤ) : List Pane → Except CtlError CState
  | [] => .ok s
  | p :: rest =>
      match pyInt? p.index with
      | none => .error .badIndexFormat
      | some i =>
          if i = idx then .ok { s with target_pane := some p.id }
          else selectByIndex s idx rest

/-- `select_pane`: a truthy `pane_id` is stored directly (no existence
check); otherwise a supplied `pane_index` is resolved against the
current `list_panes` enumeration. -/
def select_pane (env : TmuxEnv) (s : CState) (pane_id : Option String)
    (pane_index : Option ℤ) : Except CtlError CState :=
  match truthyStr pane_id with
  | some p => .ok { s with target_pane := some p }
  | none =>
      match pane_index with
      | some idx => do
          let panes ← list_panes env s
          selectByIndex s idx panes
      | none => .ok s

end TmuxCLIController

/-- The `delay_enter` argument of `send_keys`: Python lets it be a
`bool` or a number (`Union[bool, float]`). -/
inductive PyDelay
  | ofBool (b : Bool)
  | ofNum (q : ℚ)
deriving DecidableEq, Repr

/-- Python truthiness of `delay_enter` (`False` and `0` are falsy). -/
def PyDelay.truthy : PyDelay → Bool
  | .ofBool b => b
  | .ofNum q => if q = 0 then false else true

/-- The delay used by `send_keys`: `1.0` when `delay_enter` is a
`bool` (`isinstance(delay_enter, bool)`), else `float(delay_enter)`. -/
def PyDelay.seconds : PyDelay → ℚ
  | .ofBool _ => 1
  | .ofNum q => q

/-- Observable actions of `send_keys`: a bridge invocation or a
`time.sleep`. -/
inductive SendEvent
  | cmd (args : List String)
  | sleepFor (d : ℚ)
deriving DecidableEq, Repr

namespace TmuxCLIController

/-- `send_keys`: resolves the target (default `self.target_pane`),
then either delivers text and `Enter` in one bridge call, or — when
`enter` and `delay_enter` are both truthy — delivers the text alone,
sleeps for the delay, and delivers `Enter` in a second bridge call.
The result is the ordered trace of observable actions. -/
def send_keys (s : CState) (text : String) (pane_id : Option String)
    (enter : Bool) (delay_enter : PyDelay) : Except CtlError (List SendEvent) :=
  match resolveTarget pane_id s.target_pane with
  | none => .error .noTarget
  | some target =>
      if enter && delay_enter.truthy then
        .ok [.cmd ["send-keys", "-t", target, text],
             .sleepFor delay_enter.seconds,
             .cmd ["send-keys", "-t", target, "Enter"]]
      else
        .ok [.cmd (["send-keys", "-t", target, text] ++
              if enter then ["Enter"] else [])]

/-- `capture_pane`: resolves the target and returns the captured text;
the bridge's exit status is discarded (`output, _ = ...`).  The
external capture semantics per tick is supplied as `buffer` (the full
scrollback of the pane at that instant); the `-S -lines` flag, added
only when `lines` is truthy, restricts it to the last `lines` lines. -/
def capture_pane (buffer : String) (s : CState) (pane_id : Option String)
    (lines : Option ℕ) : Except CtlError String :=
  match resolveTarget pane_id s.target_pane with
  | none => .error .noTarget
  | some _ => .ok (capture_pane_output buffer lines)

/-- The `while time.time() - start_time < timeout` loop of
`wait_for_prompt`: on each tick, if the deadline has not passed,
capture the last 50 lines and test the pattern (`re.search`, modelled
by the abstract `search`); a match returns success, otherwise the loop
sleeps and repeats; a tick past the deadline returns failure.  `n` is
the index of the current tick. -/
def promptLoop (search : String → Bool) (timeout start : ℤ) :
    ℕ → List IdleTick → Option (Bool × ℕ)
  | _, [] => none
  | n, tk :: rest =>
      if tk.time - start < timeout then
        if search (capture_pane_output tk.content (some 50)) then some (true, n)
        else promptLoop search timeout start (n + 1) rest
      else some (false, n)

/-- `wait_for_prompt`: resolves the target, then polls until the
pattern matches the last-50-line window of the capture or the timeout
elapses.  `check_interval` only feeds `time.sleep`, which is reflected
in the tick times of a run.  Source defaults: `timeout` 10s,
`check_interval` 0.5s. -/
def wait_for_prompt (search : String → Bool) (s : CState)
    (pane_id : Option String) (timeout : ℤ) (check_interval : ℤ)
    (start : ℤ) (ticks : List IdleTick) : Except CtlError (Option (Bool × ℕ)) :=
  match resolveTarget pane_id s.target_pane with
  | none => .error .noTarget
  | some _ => .ok (promptLoop search timeout start 0 ticks)

/-- The transient `(last_hash, last_change_time)` pair of one
`wait_for_idle` call (the spec's Idle Observation). -/
structure IdleObs where
  lastHash : String
  lastChange : ℤ
deriving DecidableEq, Repr

/-- The `if timeout and (time.time() - start_time > timeout)` guard:
`None` and `0` are falsy, so only a nonzero timeout can fire. -/
def timeoutFires (timeout : Option ℤ) (start now : ℤ) : Bool :=
  match timeout with
  | none => false
  | some q => if q = 0 then false else decide (now - start > q)

/-- The `while True` loop of `wait_for_idle`: on each tick, first the
timeout guard (failure exit), then capture and hash; a changed hash
restamps `last_change`, an unchanged hash that has persisted for
`idle_time` returns success, otherwise sleep and repeat.  `n` is the
index of the current tick. -/
def waitIdleRun (idle_time : ℤ) (timeout : Option ℤ) (start : ℤ) :
    IdleObs → ℕ → List IdleTick → Option (Bool × ℕ)
  | _, _, [] => none
  | obs, n, tk :: rest =>
      if timeoutFires timeout start tk.time then some (false, n)
      else
        let h := contentHash tk.content
        if h ≠ obs.lastHash then
          waitIdleRun idle_time timeout start ⟨h, tk.time⟩ (n + 1) rest
        else if tk.time - obs.lastChange ≥ idle_time then some (true, n)
        else waitIdleRun idle_time timeout start obs (n + 1) rest

/-- `wait_for_idle`: resolves the target, then runs the polling loop
with `last_hash = ""` and `last_change_time = start` (the source takes
two consecutive clock samples for `start_time` and `last_change_time`;
they are modelled as equal).  `check_interval` only feeds
`time.sleep`, reflected in the tick times of a run.  Source defaults:
`idle_time` 2s, `check_interval` 0.5s, `timeout = None`. -/
def wait_for_idle (s : CState) (pane_id : Option String) (idle_time : ℤ)
    (check_interval : ℤ) (timeout : Option ℤ) (start : ℤ)
    (ticks : List IdleTick) : Except CtlError (Option (Bool × ℕ)) :=
  match resolveTarget pane_id s.target_pane with
  | none => .error .noTarget
  | some _ => .ok (waitIdleRun idle_time timeout start ⟨"", start⟩ 0 ticks)

/-- The self-preservation guard of `kill_pane`: it runs only when
`pane_id` was explicitly provided (`if pane_id is not None`), and
fires when the current pane is truthy and equals the target. -/
def ownPaneGuard (env : TmuxEnv) (pane_id : Option String)
    (target : String) : Bool :=
  pane_id.isSome &&
    (match truthyStr (get_current_pane env) with
     | some cur => target = cur
     | none => false)

/-- `kill_pane`: resolves the target; rejects a self-kill only on the
explicit-`pane_id` path; then issues `kill-pane` (the bridge's exit
status is discarded) and clears `target_pane` when it equals the
killed target.  Returns the new state and the issued bridge command;
the error paths issue no command. -/
def kill_pane (env : TmuxEnv) (s : CState) (pane_id : Option String) :
    Except CtlError (CState × List String) :=
  match resolveTarget pane_id s.target_pane with
  | none => .error .noTarget
  | some target =>
      if ownPaneGuard env pane_id target then .error .selfTermination
      else
        let s2 := if s.target_pane = some target then
          { s with target_pane := none } else s
        .ok (s2, ["kill-pane", "-t", target])

end TmuxCLIController

/-- Error kind of the Detached backend (`NotImplementedError` in the
stub, the spec's `UnsupportedMode`). -/
inductive RemoteError
  | unsupportedMode
deriving DecidableEq, Repr

namespace RemoteTmuxController

/-- `list_panes` of the stub: returns an empty list (it does not
raise). -/
def list_panes : Except RemoteError (List Pane) := .ok []

/-- `launch_cli` of the stub: raises `NotImplementedError`. -/
def launch_cli (command : String) (name : Option String) :
    Except RemoteError (Option String) := .error .unsupportedMode

/-- `send_keys` of the stub: raises `NotImplementedError`. -/
def send_keys (text : String) (pane_id : Option String) (enter : Bool)
    (delay_enter : PyDelay) : Except RemoteError Unit := .error .unsupportedMode

/-- `capture_pane` of the stub: raises `NotImplementedError`. -/
def capture_pane (pane_id : Option String) (lines : Option ℕ) :
    Except RemoteError String := .error .unsupportedMode

/-- `wait_for_idle` of the stub: raises `NotImplementedError`. -/
def wait_for_idle (pane_id : Option String) (idle_time check_interval : ℤ)
    (timeout : Option ℤ) : Except RemoteError Bool := .error .unsupportedMode

/-- `send_interrupt` of the stub: raises `NotImplementedError`. -/
def send_interrupt (pane_id : Option String) : Except RemoteError Unit :=
  .error .unsupportedMode

/-- `send_escape` of the stub: raises `NotImplementedError`. -/
def send_escape (pane_id : Option String) : Except RemoteError Unit :=
  .error .unsupportedMode

/-- `kill_window` of the stub: raises `NotImplementedError`. -/
def kill_window (window_id : Option String) : Except RemoteError Unit :=
  .error .unsupportedMode

/-- `attach_session` of the stub: raises `NotImplementedError`. -/
def attach_session : Except RemoteError Unit := .error .unsupportedMode

/-- `cleanup_session` of the stub: raises `NotImplementedError`. -/
def cleanup_session : Except RemoteError Unit := .error .unsupportedMode

/-- `list_windows` of the stub: raises `NotImplementedError` (window
records modelled with the same record shape as panes). -/
def list_windows : Except RemoteError (List Pane) := .error .unsupportedMode

/-- `_resolve_pane_id` of the stub: raises `NotImplementedError`. -/
def resolve_pane_id (pane : Option String) : Except RemoteError (Option String) :=
  .error .unsupportedMode

end RemoteTmuxController

/-- The `except ValueError as e: print(str(e))` handler of `CLI.kill`:
the messages the controller's `ValueError`s carry. -/
def errorMessage : CtlError → String
  | .noTarget => "No target pane specified"
  | .selfTermination =>
      "Error: Cannot kill own pane! This would terminate your session."
  | .notFound => "NotFound"
  | .badIndexFormat => "invalid literal for int()"
  | .malformedLine => "IndexError"

namespace CLI

/-- The pane-argument convention shared by the local-mode `CLI`
methods: a truthy `pane` that is all digits selects by index
(`select_pane(pane_index=int(pane))`), any other truthy `pane` selects
by id, and a falsy `pane` leaves the selection as is.  Errors raised
by `select_pane` propagate (they are outside any `try`). -/
def selectStep (env : TmuxEnv) (s : CState) (pane : Option String) :
    Except CtlError CState :=
  match truthyStr pane with
  | none => .ok s
  | some p =>
      if pyIsDigit p then
        TmuxCLIController.select_pane env s none (some (digitsToNat p.data : ℤ))
      else TmuxCLIController.select_pane env s (some p) none

/-- `CLI.kill` in local mode: select the requested pane, then call
`kill_pane()` **with no argument**, printing either `"Pane killed"` or
the caught `ValueError`'s message.  Returns the final state, the
bridge command issued by the kill (if any), and the printed line. -/
def kill (env : TmuxEnv) (s : CState) (pane : Option String) :
    Except CtlError (CState × Option (List String) × String) := do
  let s1 ← selectStep env s pane
  match TmuxCLIController.kill_pane env s1 none with
  | .ok (s2, c) => .ok (s2, some c, "Pane killed")
  | .error e => .ok (s1, none, errorMessage e)

/-- `CLI.send` in local mode: select the requested pane, then call
`send_keys` with no explicit pane (no `try`: a `ValueError`
propagates). -/
def send (env : TmuxEnv) (s : CState) (text : String) (pane : Option String)
    (enter : Bool) (delay_enter : PyDelay) :
    Except CtlError (CState × List SendEvent) := do
  let s1 ← selectStep env s pane
  let evs ← TmuxCLIController.send_keys s1 text none enter delay_enter
  .ok (s1, evs)

end CLI

instance {ε α : Type} [DecidableEq ε] [DecidableEq α] :
    DecidableEq (Except ε α) := fun
  | .ok a, .ok b =>
      if h : a = b then .isTrue (by simp [h]) else .isFalse (by simp [h])
  | .ok _, .error _ => .isFalse (by simp)
  | .error _, .ok _ => .isFalse (by simp)
  | .error e, .error f =>
      if h : e = f then .isTrue (by simp [h]) else .isFalse (by simp [h])

/-- A bridge in which the caller's execution-hosting pane is `%1` and
every command succeeds. -/
def envOwnPane : TmuxEnv := fun c =>
  if c = ["display-message", "-p", "#\x7bpane_id\x7d"] then ("%1", 0) else ("", 0)

/-- A bridge whose window has exactly one pane `%5` at index 1. -/
def envOnePane : TmuxEnv := fun c =>
  if c = ["list-panes", "-F", TmuxCLIController.paneFormat] then
    ("%5|1|t|1|80x24", 0)
  else ("", 0)

/-- A bridge on which every command fails with exit status 1. -/
def envAllFail : TmuxEnv := fun _ => ("fail", 1)

/-- The boolean a scripted caller observes from a polling call:
`some b` when the loop returned `b` within the run's ticks, `none`
when the run's ticks were exhausted with the loop still going (or the
call raised). -/
def pollOutcome : Except CtlError (Option (Bool × ℕ)) → Option Bool
  | .ok (some (b, _)) => some b
  | .ok none => none
  | .error _ => none

/-- A line-membership pattern, standing in for a concrete `re.search`
(used to instantiate the abstract pattern matcher in witnesses). -/
def lineMatch (needle : String) (hay : String) : Bool :=
  (splitChar '\n' hay).contains needle

/-- A 51-line buffer whose only `READY` line is the very first, hence
above every 50-line trailing window. -/
def readyAboveWindow : String := joinNl ("READY" :: List.replicate 50 "x")

/-- The md5 model is never the empty string, exactly as a 32-character
hexdigest never equals the loop's `""` initialiser. -/
theorem contentHash_ne_empty (s : String) : contentHash s ≠ "" := by
  intro h
  have h2 : (contentHash s).data = ("" : String).data := congrArg String.data h
  simp [contentHash] at h2

/-- A falsy timeout (`None` or `0`) never fires the guard. -/
theorem timeoutFires_absent (timeout : Option ℤ) (start now : ℤ)
    (h : timeout = none ∨ timeout = some 0) :
    TmuxCLIController.timeoutFires timeout start now = false := by
  rcases h with h | h <;> subst h <;> simp [TmuxCLIController.timeoutFires]

/-- With a falsy timeout, the idle loop has no failure exit. -/
theorem waitIdleRun_no_false (idle_time : ℤ) (timeout : Option ℤ) (start : ℤ)
    (habsent : timeout = none ∨ timeout = some 0) :
    ∀ (ticks : List IdleTick) (obs : TmuxCLIController.IdleObs) (n m : ℕ),
      TmuxCLIController.waitIdleRun idle_time timeout start obs n ticks ≠
        some (false, m) := by
  intro ticks
  induction ticks with
  | nil => intro obs n m; simp [TmuxCLIController.waitIdleRun]
  | cons tk rest ih =>
      intro obs n m
      simp only [TmuxCLIController.waitIdleRun,
        timeoutFires_absent timeout start tk.time habsent]
      simp only [if_false, Bool.false_eq_true]
      split
      · exact ih _ _ _
      · split
        · simp
        · exact ih _ _ _

/-- With a falsy timeout and a capture whose fingerprint differs from
the held one and keeps changing on every tick, the idle loop consumes
every tick without returning (the fuel view of divergence). -/
theorem waitIdleRun_none_of_changing (idle_time : ℤ) (timeout : Option ℤ)
    (start : ℤ) (habsent : timeout = none ∨ timeout = some 0) :
    ∀ (ticks : List IdleTick) (obs : TmuxCLIController.IdleObs) (n : ℕ),
      (∀ hd ∈ ticks.head?, contentHash hd.content ≠ obs.lastHash) →
      List.Chain' (fun a b => contentHash a.content ≠ contentHash b.content) ticks →
      TmuxCLIController.waitIdleRun idle_time timeout start obs n ticks = none := by
  intro ticks
  induction ticks with
  | nil => intro obs n _ _; rfl
  | cons tk rest ih =>
      intro obs n hhd hchain
      have hne : contentHash tk.content ≠ obs.lastHash := hhd tk rfl
      rw [List.chain'_cons'] at hchain
      simp only [TmuxCLIController.waitIdleRun,
        timeoutFires_absent timeout start tk.time habsent]
      simp only [if_false, Bool.false_eq_true]
      rw [if_pos hne]
      exact ih ⟨contentHash tk.content, tk.time⟩ (n + 1)
        (fun r hr => (hchain.1 r hr).symm) hchain.2

/-- With a truthy (nonzero) timeout strictly below `idle_time`, the
idle loop can never reach its success exit: when the unchanged-hash
branch is examined at a tick, `idle_time` since the last change has
not elapsed unless the timeout guard (checked first on that very tick)
has already fired.  The invariant is `start ≤ obs.lastChange`. -/
theorem waitIdleRun_no_true_of_small_timeout (idle_time q start : ℤ)
    (hq : q ≠ 0) (hlt : q < idle_time) :
    ∀ (ticks : List IdleTick) (obs : TmuxCLIController.IdleObs) (n m : ℕ),
      (∀ tk ∈ ticks, start ≤ tk.time) → start ≤ obs.lastChange →
      TmuxCLIController.waitIdleRun idle_time (some q) start obs n ticks ≠
        some (true, m) := by
  intro ticks
  induction ticks with
  | nil => intro obs n m _ _; simp [TmuxCLIController.waitIdleRun]
  | cons tk rest ih =>
      intro obs n m htime hobs
      simp only [TmuxCLIController.waitIdleRun]
      split
      · simp
      · rename_i hguard
        have hle : tk.time - start ≤ q := by
          simp only [TmuxCLIController.timeoutFires, if_neg hq] at hguard
          have := of_decide_eq_false (Bool.not_eq_true _ ▸ hguard)
          omega
        split
        · exact ih ⟨contentHash tk.content, tk.time⟩ (n + 1) m
            (fun r hr => htime r (List.mem_cons_of_mem _ hr))
            (htime tk (List.mem_cons_self _ _))
        · split
          · rename_i hidle
            omega
          · exact ih obs (n + 1) m
              (fun r hr => htime r (List.mem_cons_of_mem _ hr)) hobs

/-- If the pattern fails on the 50-line window at every tick, the
prompt loop can only exit through the deadline; a tick at or past the
deadline makes it return failure. -/
theorem promptLoop_fails_of_window_miss (search : String → Bool)
    (timeout start : ℤ) :
    ∀ (ticks : List IdleTick) (n : ℕ),
      (∀ tk ∈ ticks, search (capture_pane_output tk.content (some 50)) = false) →
      (∃ tk ∈ ticks, timeout ≤ tk.time - start) →
      ∃ m, TmuxCLIController.promptLoop search timeout start n ticks =
        some (false, m) := by
  intro ticks
  induction ticks with
  | nil => intro n _ hdead; exact absurd hdead (by simp)
  | cons tk rest ih =>
      intro n hmiss hdead
      by_cases hlt : tk.time - start < timeout
      · have hrest : ∃ r ∈ rest, timeout ≤ r.time - start := by
          rcases hdead with ⟨r, hr, hle⟩
          rcases List.mem_cons.mp hr with h | h
          · subst h; omega
          · exact ⟨r, h, hle⟩
        obtain ⟨m, hm⟩ := ih (n + 1)
          (fun r hr => hmiss r (List.mem_cons_of_mem _ hr)) hrest
        refine ⟨m, ?_⟩
        simp only [TmuxCLIController.promptLoop, if_pos hlt,
          hmiss tk (List.mem_cons_self _ _), Bool.false_eq_true, if_false]
        exact hm
      · exact ⟨n, by simp [TmuxCLIController.promptLoop, if_neg hlt]⟩

/-- C1: the claim says every destroy/kill path whose resolved target is
the execution-hosting pane fails with SelfTerminationRejected.  The
code contradicts its own embedded help text: on the bridge `envOwnPane`
the execution-hosting pane is `%1`, yet `CLI.kill` with the explicit
argument `%1` selects it and then calls `kill_pane()` with no argument,
skipping the guard (which only runs when `pane_id` is explicitly
passed) and issuing `kill-pane -t %1` with a success message; the
omitted-target fallback path does the same.  Only the direct
`kill_pane(pane_id=...)` call rejects. -/
theorem cli_kill_destroys_execution_hosting_pane :
    TmuxCLIController.get_current_pane envOwnPane = some "%1" ∧
    CLI.kill envOwnPane ⟨none, none, none⟩ (some "%1") =
      .ok (⟨none, none, none⟩, some ["kill-pane", "-t", "%1"], "Pane killed") ∧
    TmuxCLIController.kill_pane envOwnPane ⟨none, none, some "%1"⟩ none =
      .ok (⟨none, none, none⟩, ["kill-pane", "-t", "%1"]) ∧
    TmuxCLIController.kill_pane envOwnPane ⟨none, none, none⟩ (some "%1") =
      .error .selfTermination :=
  ⟨by decide, by decide, by decide, by decide⟩

/-- C2 counterexample: on a window whose only pane has index 1,
resolving index 2 neither raises NotFound nor clears the previously
selected handle `%0` — the stale selection is silently kept, refuting
the claim as stated. -/
theorem select_pane_missing_index_keeps_stale_handle :
    TmuxCLIController.select_pane envOnePane ⟨none, none, some "%0"⟩ none (some 2) =
      .ok ⟨none, none, some "%0"⟩ ∧
    TmuxCLIController.select_pane envOnePane ⟨none, none, some "%0"⟩ none (some 2) ≠
      .error .notFound :=
  ⟨by decide, by decide⟩

/-- C2 (amended): integer resolution scans the current enumeration and
selects the first pane whose reported index equals the integer —
stated for every enumeration that decomposes as a (parsing,
non-matching) prefix, the first matching pane, and an arbitrary
remainder; when no pane matches it raises no error and leaves the
previous (possibly stale) selection in place. -/
theorem select_pane_index_resolution_amended (s : CState) (idx : ℤ) :
    (∀ panes : List Pane,
        (∀ p ∈ panes, ∃ j, pyInt? p.index = some j ∧ j ≠ idx) →
        TmuxCLIController.selectByIndex s idx panes = .ok s) ∧
    (∀ (pre : List Pane) (p : Pane) (rest : List Pane),
        (∀ q ∈ pre, ∃ j, pyInt? q.index = some j ∧ j ≠ idx) →
        pyInt? p.index = some idx →
        TmuxCLIController.selectByIndex s idx (pre ++ p :: rest) =
          .ok { s with target_pane := some p.id }) := by
  constructor
  · intro panes h
    induction panes with
    | nil => rfl
    | cons p rest ih =>
        obtain ⟨j, hj, hne⟩ := h p (List.mem_cons_self _ _)
        simp only [TmuxCLIController.selectByIndex, hj]
        rw [if_neg hne]
        exact ih fun q hq => h q (List.mem_cons_of_mem _ hq)
  · intro pre p rest hpre hp
    induction pre with
    | nil => simp [TmuxCLIController.selectByIndex, hp]
    | cons q pre' ih =>
        obtain ⟨j, hj, hne⟩ := hpre q (List.mem_cons_self _ _)
        simp only [List.cons_append, TmuxCLIController.selectByIndex, hj]
        rw [if_neg hne]
        exact ih fun r hr => hpre r (List.mem_cons_of_mem _ hr)

/-- C2 witness: on a two-pane enumeration of indexes 0 and 1, resolving
2 keeps the stale `%0` selection, while resolving 1 selects `%5` — the
first (and only) match, sitting after a non-matching pane. -/
theorem select_pane_index_resolution_witness :
    TmuxCLIController.selectByIndex ⟨none, none, some "%0"⟩ 2
      [⟨"%4", "0", "t", false, "80x24"⟩, ⟨"%5", "1", "t", true, "80x24"⟩] =
      .ok ⟨none, none, some "%0"⟩ ∧
    TmuxCLIController.selectByIndex ⟨none, none, some "%0"⟩ 1
      [⟨"%4", "0", "t", false, "80x24"⟩, ⟨"%5", "1", "t", true, "80x24"⟩] =
      .ok ⟨none, none, some "%5"⟩ := by
  constructor
  · refine (select_pane_index_resolution_amended ⟨none, none, some "%0"⟩ 2).1 _ ?_
    intro p hp
    rcases List.mem_cons.mp hp with h | h
    · subst h; exact ⟨0, by decide, by decide⟩
    · rw [List.mem_singleton] at h
      subst h; exact ⟨1, by decide, by decide⟩
  · refine (select_pane_index_resolution_amended ⟨none, none, some "%0"⟩ 1).2
      [⟨"%4", "0", "t", false, "80x24"⟩] ⟨"%5", "1", "t", true, "80x24"⟩ []
      ?_ (by decide)
    intro q hq
    rw [List.mem_singleton] at hq
    subst hq
    exact ⟨0, by decide, by decide⟩

/-- C3 counterexample: the bridge rejects the `kill-pane` command with
exit status 1 (a failed destroy), yet `kill_pane` still clears the
last-selected reference — refuting "on a failed destroy it is kept". -/
theorem kill_pane_clears_reference_on_failed_destroy :
    (envAllFail ["kill-pane", "-t", "%2"]).2 = 1 ∧
    TmuxCLIController.kill_pane envAllFail ⟨none, none, some "%2"⟩ none =
      .ok (⟨none, none, none⟩, ["kill-pane", "-t", "%2"]) :=
  ⟨by decide, by decide⟩

/-- C3 (amended): destroying the last-selected target clears the
reference whenever the `kill-pane` command is issued — regardless of
the bridge's exit status, which the source discards — and a subsequent
target-omitting operation then fails with NoTargetSpecified; the
reference survives only when the operation aborts before issuing the
command. -/
theorem kill_pane_reference_lifecycle_amended (env env' : TmuxEnv) (s : CState)
    (t text : String) (enter : Bool) (d : PyDelay)
    (ht : s.target_pane = some t) (hne : t ≠ "") :
    TmuxCLIController.kill_pane env s none =
      .ok ({ s with target_pane := none }, ["kill-pane", "-t", t]) ∧
    TmuxCLIController.send_keys { s with target_pane := none } text none enter d =
      .error .noTarget ∧
    TmuxCLIController.kill_pane env s none = TmuxCLIController.kill_pane env' s none := by
  have key : ∀ e : TmuxEnv, TmuxCLIController.kill_pane e s none =
      .ok ({ s with target_pane := none }, ["kill-pane", "-t", t]) := by
    intro e
    simp [TmuxCLIController.kill_pane, resolveTarget, truthyStr, ht, hne,
      TmuxCLIController.ownPaneGuard]
  refine ⟨key env, ?_, by rw [key env, key env']⟩
  simp [TmuxCLIController.send_keys, resolveTarget, truthyStr]

/-- C3 witness: with the all-failing bridge, killing the last-selected
pane `%2` clears the reference and a subsequent send with no target
fails with NoTargetSpecified. -/
theorem kill_pane_reference_lifecycle_witness :
    TmuxCLIController.kill_pane envAllFail ⟨none, none, some "%2"⟩ none =
      .ok (⟨none, none, none⟩, ["kill-pane", "-t", "%2"]) ∧
    TmuxCLIController.send_keys ⟨none, none, none⟩ "echo hi" none true (.ofBool true) =
      .error .noTarget := by
  have h := kill_pane_reference_lifecycle_amended envAllFail envOwnPane
    ⟨none, none, some "%2"⟩ "%2" "echo hi" true (.ofBool true) rfl (by decide)
  exact ⟨h.1, h.2.1⟩

/-- C4 counterexample: `timeout = 0` is a supplied timeout strictly
below `idle_time = 2`, yet the `if timeout and ...` guard treats it as
absent and the call returns success once the content sits still. -/
theorem wait_for_idle_zero_timeout_can_succeed :
    (0 : ℤ) < 2 ∧
    TmuxCLIController.wait_for_idle ⟨none, none, some "%2"⟩ none 2 1 (some 0) 0
      [⟨0, "a"⟩, ⟨3, "a"⟩] = .ok (some (true, 1)) :=
  ⟨by decide, by decide⟩

/-- C4 (amended): for every supplied *nonzero* timeout strictly smaller
than `idle_time` (the guard treats `0` as no timeout), `wait_for_idle`
never returns success, regardless of the captured contents. -/
theorem wait_for_idle_small_nonzero_timeout_never_succeeds (s : CState)
    (pane_id : Option String) (idle_time check_interval q start : ℤ)
    (ticks : List IdleTick) (hq : q ≠ 0) (hlt : q < idle_time)
    (htime : ∀ tk ∈ ticks, start ≤ tk.time) :
    pollOutcome (TmuxCLIController.wait_for_idle s pane_id idle_time
      check_interval (some q) start ticks) ≠ some true := by
  unfold TmuxCLIController.wait_for_idle
  cases hres : resolveTarget pane_id s.target_pane with
  | none => simp [pollOutcome]
  | some t =>
      cases hrun : TmuxCLIController.waitIdleRun idle_time (some q) start
          ⟨"", start⟩ 0 ticks with
      | none => simp [pollOutcome, hrun]
      | some r =>
          obtain ⟨b, m⟩ := r
          cases b with
          | false => simp [pollOutcome, hrun]
          | true =>
              exact absurd hrun (waitIdleRun_no_true_of_small_timeout idle_time q
                start hq hlt ticks ⟨"", start⟩ 0 m htime le_rfl)

/-- C4 witness: timeout 1 is nonzero and below idle time 2, and on a
constant capture sequence the call indeed does not report success. -/
theorem wait_for_idle_small_nonzero_timeout_witness :
    (1 : ℤ) ≠ 0 ∧ (1 : ℤ) < 2 ∧
    pollOutcome (TmuxCLIController.wait_for_idle ⟨none, none, some "%2"⟩ none 2 1
      (some 1) 0 [⟨0, "a"⟩, ⟨1, "a"⟩, ⟨2, "a"⟩]) ≠ some true :=
  ⟨by decide, by decide,
    wait_for_idle_small_nonzero_timeout_never_succeeds ⟨none, none, some "%2"⟩ none
      2 1 1 0 [⟨0, "a"⟩, ⟨1, "a"⟩, ⟨2, "a"⟩] (by decide) (by decide) (by decide)⟩

/-- C5 counterexample: `list_panes` on the Detached backend silently
returns an empty list instead of failing with UnsupportedMode,
refuting "every operation ... fails" as stated. -/
theorem remote_list_panes_returns_empty_list :
    RemoteTmuxController.list_panes = .ok [] ∧
    RemoteTmuxController.list_panes ≠ .error .unsupportedMode :=
  ⟨by decide, by decide⟩

/-- C5 (amended): every operation of the Detached backend except the
read-only `list_panes` (which silently returns an empty list) fails
immediately with UnsupportedMode, for all arguments, with no partial
execution. -/
theorem remote_operations_unsupported_mode (command text : String)
    (name pane_id window_id pane : Option String) (enter : Bool) (d : PyDelay)
    (lines : Option ℕ) (idle_time check_interval : ℤ) (timeout : Option ℤ) :
    RemoteTmuxController.launch_cli command name = .error .unsupportedMode ∧
    RemoteTmuxController.send_keys text pane_id enter d = .error .unsupportedMode ∧
    RemoteTmuxController.capture_pane pane_id lines = .error .unsupportedMode ∧
    RemoteTmuxController.wait_for_idle pane_id idle_time check_interval timeout =
      .error .unsupportedMode ∧
    RemoteTmuxController.send_interrupt pane_id = .error .unsupportedMode ∧
    RemoteTmuxController.send_escape pane_id = .error .unsupportedMode ∧
    RemoteTmuxController.kill_window window_id = .error .unsupportedMode ∧
    RemoteTmuxController.attach_session = .error .unsupportedMode ∧
    RemoteTmuxController.cleanup_session = .error .unsupportedMode ∧
    RemoteTmuxController.list_windows = .error .unsupportedMode ∧
    RemoteTmuxController.resolve_pane_id pane = .error .unsupportedMode :=
  ⟨rfl, rfl, rfl, rfl, rfl, rfl, rfl, rfl, rfl, rfl, rfl⟩

/-- C6: when every captured content equals the first capture and
`idle_time < check_interval`, `wait_for_idle` (with its default absent
timeout) declares the target idle on the second polling tick (index 1,
within the claim's "first or second"): the first tick always restamps
`last_change` because `last_hash` starts as `""`, and the sleep of
`check_interval` guarantees the second tick already sits `idle_time`
past it. -/
theorem wait_for_idle_constant_content_second_tick (s : CState)
    (pane_id : Option String) (t : String) (idle_time check_interval start : ℤ)
    (tk0 tk1 : IdleTick) (rest : List IdleTick)
    (hres : resolveTarget pane_id s.target_pane = some t)
    (hconst : ∀ tk ∈ tk0 :: tk1 :: rest, tk.content = tk0.content)
    (hstart : start ≤ tk0.time)
    (hgap : tk0.time + check_interval ≤ tk1.time)
    (hidle : idle_time < check_interval) :
    TmuxCLIController.wait_for_idle s pane_id idle_time check_interval none start
      (tk0 :: tk1 :: rest) = .ok (some (true, 1)) := by
  have h1 : contentHash tk1.content = contentHash tk0.content :=
    congrArg contentHash (hconst tk1 (by simp))
  have hge : tk1.time - tk0.time ≥ idle_time := by omega
  unfold TmuxCLIController.wait_for_idle
  rw [hres]
  simp only [TmuxCLIController.waitIdleRun, TmuxCLIController.timeoutFires,
    Bool.false_eq_true, if_false]
  rw [if_pos (contentHash_ne_empty tk0.content)]
  simp only [TmuxCLIController.waitIdleRun, TmuxCLIController.timeoutFires,
    Bool.false_eq_true, if_false, h1]
  rw [if_neg (fun hh => hh rfl), if_pos hge]

/-- C6 witness: a python-prompt capture that never changes, with
`idle_time = 1 < 2 = check_interval`, is declared idle on the second
tick. -/
theorem wait_for_idle_constant_content_second_tick_witness :
    TmuxCLIController.wait_for_idle ⟨none, none, some "%2"⟩ none 1 2 none 0
      [⟨0, "py>"⟩, ⟨2, "py>"⟩] = .ok (some (true, 1)) :=
  wait_for_idle_constant_content_second_tick ⟨none, none, some "%2"⟩ none "%2"
    1 2 0 ⟨0, "py>"⟩ ⟨2, "py>"⟩ [] (by decide) (by decide) (by decide)
    (by decide) (by decide)

/-- C7: with `send_enter` true and a truthy `enter_delay`, the text is
delivered in one bridge call with no activation key, the call then
suspends for the delay (`1.0` when the value is the boolean `True`,
else the numeric value), and the activation key goes out in a second,
separate bridge call — so the two bridge calls are separated by at
least the delay. -/
theorem send_keys_delayed_enter_separate_calls (s : CState) (text : String)
    (pane_id : Option String) (t : String) (d : PyDelay)
    (hres : resolveTarget pane_id s.target_pane = some t)
    (hd : d.truthy = true) :
    TmuxCLIController.send_keys s text pane_id true d =
      .ok [.cmd ["send-keys", "-t", t, text], .sleepFor d.seconds,
           .cmd ["send-keys", "-t", t, "Enter"]] ∧
    PyDelay.seconds (.ofBool true) = 1 := by
  refine ⟨?_, rfl⟩
  simp [TmuxCLIController.send_keys, hres, hd]

/-- C7 witness: sending `hello` with `enter=True, delay_enter=True`
produces exactly text-call, one-second sleep, Enter-call. -/
theorem send_keys_delayed_enter_separate_calls_witness :
    TmuxCLIController.send_keys ⟨none, none, none⟩ "hello" (some "%3") true
      (.ofBool true) =
      .ok [.cmd ["send-keys", "-t", "%3", "hello"], .sleepFor 1,
           .cmd ["send-keys", "-t", "%3", "Enter"]] ∧
    PyDelay.seconds (.ofBool true) = 1 :=
  send_keys_delayed_enter_separate_calls ⟨none, none, none⟩ "hello" (some "%3")
    "%3" (.ofBool true) (by decide) (by decide)

/-- C8: the Command Bridge returns the (stripped output, status) pair
for every invocation — it is a total function, never raising on a
nonzero exit, and hands the status through unchanged — and on a
nonzero status the read-only `list_panes` degrades to an empty list
instead of raising. -/
theorem bridge_status_passthrough_and_list_panes_degrade (env : TmuxEnv)
    (s : CState) (c : List String)
    (hfail : (env (TmuxCLIController.listPanesCmd s)).2 ≠ 0) :
    (TmuxCLIController.run_tmux_command env c).1 = pyStrip (env c).1 ∧
    (TmuxCLIController.run_tmux_command env c).2 = (env c).2 ∧
    TmuxCLIController.list_panes env s = .ok [] := by
  refine ⟨rfl, rfl, ?_⟩
  simp [TmuxCLIController.list_panes, TmuxCLIController.run_tmux_command, hfail]

/-- C8 witness: on a bridge where every command exits 1, `list_panes`
returns the empty list. -/
theorem bridge_status_passthrough_witness :
    (envAllFail (TmuxCLIController.listPanesCmd ⟨none, none, none⟩)).2 = 1 ∧
    TmuxCLIController.list_panes envAllFail ⟨none, none, none⟩ = .ok [] :=
  ⟨by decide,
    (bridge_status_passthrough_and_list_panes_degrade envAllFail ⟨none, none, none⟩
      [] (by decide)).2.2⟩

/-- C9: each tick of `wait_for_prompt` matches the pattern against only
the last-50-line window of the capture, so on every run in which the
pattern occurs in the full buffer but only above that window at every
tick, and some tick reaches the deadline, the call returns failure at
timeout, never success. -/
theorem wait_for_prompt_window_miss_times_out (search : String → Bool)
    (s : CState) (pane_id : Option String) (t : String)
    (timeout check_interval start : ℤ) (ticks : List IdleTick)
    (hres : resolveTarget pane_id s.target_pane = some t)
    (hfull : ∀ tk ∈ ticks, search tk.content = true)
    (hmiss : ∀ tk ∈ ticks, search (capture_pane_output tk.content (some 50)) = false)
    (hdead : ∃ tk ∈ ticks, timeout ≤ tk.time - start) :
    pollOutcome (TmuxCLIController.wait_for_prompt search s pane_id timeout
      check_interval start ticks) = some false := by
  obtain ⟨m, hm⟩ := promptLoop_fails_of_window_miss search timeout start ticks 0
    hmiss hdead
  unfold TmuxCLIController.wait_for_prompt
  rw [hres]
  simp [pollOutcome, hm]

/-- C9 witness: a 51-line buffer whose only `READY` line is the first
(above every 50-line window) makes `wait_for_prompt` time out with
failure even though the pattern occurs in the full buffer on every
tick. -/
theorem wait_for_prompt_window_miss_witness :
    lineMatch "READY" readyAboveWindow = true ∧
    lineMatch "READY" (capture_pane_output readyAboveWindow (some 50)) = false ∧
    pollOutcome (TmuxCLIController.wait_for_prompt (lineMatch "READY")
      ⟨none, none, some "%2"⟩ none 10 1 0
      [⟨0, readyAboveWindow⟩, ⟨10, readyAboveWindow⟩]) = some false := by
  refine ⟨by decide, by decide, ?_⟩
  exact wait_for_prompt_window_miss_times_out (lineMatch "READY")
    ⟨none, none, some "%2"⟩ none "%2" 10 1 0
    [⟨0, readyAboveWindow⟩, ⟨10, readyAboveWindow⟩] (by decide) (by decide)
    (by decide) (by decide)

/-- C10: with `timeout` equal to `None` or `0` the guard never fires,
so `wait_for_idle` has no failure exit — it can only return through the
idle condition — and on every capture sequence whose fingerprint
changes on every tick the loop consumes all its ticks without
returning (it never terminates); termination needs a truthy timeout or
eventual quiescence. -/
theorem wait_for_idle_absent_timeout_no_failure_exit (s : CState)
    (pane_id : Option String) (t : String)
    (idle_time check_interval start : ℤ) (timeout : Option ℤ)
    (hres : resolveTarget pane_id s.target_pane = some t)
    (habsent : timeout = none ∨ timeout = some 0) :
    (∀ ticks : List IdleTick,
      pollOutcome (TmuxCLIController.wait_for_idle s pane_id idle_time
        check_interval timeout start ticks) ≠ some false) ∧
    (∀ ticks : List IdleTick,
      List.Chain' (fun a b => contentHash a.content ≠ contentHash b.content) ticks →
      TmuxCLIController.wait_for_idle s pane_id idle_time check_interval
        timeout start ticks = .ok none) := by
  constructor
  · intro ticks
    unfold TmuxCLIController.wait_for_idle
    rw [hres]
    cases hrun : TmuxCLIController.waitIdleRun idle_time timeout start
        ⟨"", start⟩ 0 ticks with
    | none => simp [pollOutcome, hrun]
    | some r =>
        obtain ⟨b, m⟩ := r
        cases b with
        | true => simp [pollOutcome, hrun]
        | false =>
            exact absurd hrun
              (waitIdleRun_no_false idle_time timeout start habsent ticks _ 0 m)
  · intro ticks hchain
    unfold TmuxCLIController.wait_for_idle
    rw [hres]
    rw [waitIdleRun_none_of_changing idle_time timeout start habsent ticks
      ⟨"", start⟩ 0 (fun hd _ => contentHash_ne_empty hd.content) hchain]

/-- C10 witness: with no timeout and a capture that changes on every
tick, the run reports neither failure nor success — all ticks are
consumed with the loop still going. -/
theorem wait_for_idle_absent_timeout_witness :
    pollOutcome (TmuxCLIController.wait_for_idle ⟨none, none, some "%2"⟩ none 2 1
      none 0 [⟨0, "a"⟩, ⟨1, "b"⟩, ⟨2, "c"⟩]) ≠ some false ∧
    TmuxCLIController.wait_for_idle ⟨none, none, some "%2"⟩ none 2 1 none 0
      [⟨0, "a"⟩, ⟨1, "b"⟩, ⟨2, "c"⟩] = .ok none := by
  have h := wait_for_idle_absent_timeout_no_failure_exit ⟨none, none, some "%2"⟩
    none "%2" 2 1 0 none (by decide) (Or.inl rfl)
  refine ⟨h.1 _, h.2 _ ?_⟩
  exact List.chain'_cons.mpr ⟨by decide,
    List.chain'_cons.mpr ⟨by decide, List.chain'_singleton _⟩⟩
